import Mathlib

/-!
Shallow embedding of the scoring/aggregation logic of the CyberVault
repository (file `src/services` module holding `passwordStrengthChecker`
and `phishingScanner`), together with theorems settling the frozen claims
about the spec.

Conventions of the embedding:
* JS strings are Lean `String`s; `s.toLowerCase()` is modelled as mapping
  `Char.toLower` over the character list (ASCII case folding, which covers
  every string the code compares against).
* JS regex character classes `[A-Z]`, `[a-z]`, `[0-9]`, `[^A-Za-z0-9]` are
  the core `Char.isUpper`, `Char.isLower`, `Char.isDigit`, `!Char.isAlphanum`
  tests, which denote exactly the same ASCII ranges.
* External HTTP calls are oracles: each call site takes the response (or a
  transport failure, `Except.error ()`) as an explicit input.  A `try` block
  around a call maps `Except.error` to the source's `catch` branch.
* JS numbers that the code only ever treats as integers are `Nat`/`Int`;
  `parseInt` is modelled by `parseIntJS : String → Option Int` where `none`
  stands for `NaN`.
-/

namespace CyberVault

/-- Risk level of a URL scan, the `'low' | 'medium' | 'high'` union type. -/
inductive RiskLevel
  | low
  | medium
  | high
deriving DecidableEq

/-- Password strength verdict, the `'weak' | 'medium' | 'strong'` union type. -/
inductive Strength
  | weak
  | medium
  | strong
deriving DecidableEq

/-- Domain reputation bucket, the `'high' | 'medium' | 'low'` union type. -/
inductive Reputation
  | high
  | medium
  | low
deriving DecidableEq

/-- JS `s.toLowerCase()` on the character list (ASCII folding). -/
def lowerChars (s : String) : List Char :=
  s.data.map Char.toLower

/-- JS `s.toLowerCase()` as a string. -/
def lowerStr (s : String) : String :=
  String.mk (lowerChars s)

/-! ## passwordStrengthChecker.checkStrength -/

/-- Result record of `checkStrength`. -/
structure StrengthResult where
  score : Nat
  strength : Strength
  feedback : List String
deriving DecidableEq

/-- The fixed `commonPasswords` table of `checkStrength`. -/
def commonPasswords : List String :=
  ["password", "123456", "qwerty", "admin", "welcome", "password123"]

/-- Points accumulated by the six additive sub-checks of `checkStrength`
(length ≥ 8, length ≥ 12, uppercase, lowercase, digit, special character),
before the common-password override. -/
def rawScore (password : String) : Nat :=
  (if password.length ≥ 8 then 1 else 0)
    + (if password.length ≥ 12 then 1 else 0)
    + (if password.data.any Char.isUpper then 1 else 0)
    + (if password.data.any Char.isLower then 1 else 0)
    + (if password.data.any Char.isDigit then 1 else 0)
    + (if password.data.any (fun c => !c.isAlphanum) then 1 else 0)

/-- Feedback lines pushed by the sub-checks of `checkStrength`, in the order
the source pushes them (length first, then the four character classes, then
the common-password override). -/
def rawFeedback (password : String) : List String :=
  (if password.length < 8 then ["❌ Should be at least 8 characters"] else [])
    ++ (if password.data.any Char.isUpper then [] else ["⚠️ Add uppercase letters"])
    ++ (if password.data.any Char.isLower then [] else ["⚠️ Add lowercase letters"])
    ++ (if password.data.any Char.isDigit then [] else ["⚠️ Add numbers"])
    ++ (if password.data.any (fun c => !c.isAlphanum) then []
        else ["⚠️ Add special characters (!@#$%)"])
    ++ (if lowerStr password ∈ commonPasswords
        then ["🚫 Very common password - choose something unique"] else [])

/-- Score after the common-password override of `checkStrength`:
`if (commonPasswords.includes(password.toLowerCase())) score = 0`. -/
def finalScore (password : String) : Nat :=
  if lowerStr password ∈ commonPasswords then 0 else rawScore password

/-- Embedding of `passwordStrengthChecker.checkStrength`. -/
def checkStrength (password : String) : StrengthResult :=
  if finalScore password ≥ 5 then
    ⟨finalScore password, Strength.strong, rawFeedback password ++ ["✅ Strong password!"]⟩
  else if finalScore password ≥ 3 then
    ⟨finalScore password, Strength.medium,
      rawFeedback password ++ ["⚠️ Medium strength - could be stronger"]⟩
  else
    ⟨finalScore password, Strength.weak,
      rawFeedback password ++ ["❌ Weak password - consider improving"]⟩

/-- Each additive sub-check contributes at most one point, so the
pre-override score is bounded by the number of sub-checks. -/
theorem rawScore_le_six (password : String) : rawScore password ≤ 6 := by
  unfold rawScore
  split_ifs <;> omega

/-- C2: a password whose lowercase form is on the fixed common-password list
gets score 0 and strength weak, with the very-common-password feedback entry
appended, regardless of the points of the length and character-class checks. -/
theorem checkStrength_common_password_override (password : String)
    (h : lowerStr password ∈ commonPasswords) :
    (checkStrength password).score = 0 ∧
    (checkStrength password).strength = Strength.weak ∧
    "🚫 Very common password - choose something unique" ∈ (checkStrength password).feedback := by
  have hsc : finalScore password = 0 := by
    unfold finalScore
    exact if_pos h
  unfold checkStrength
  rw [hsc]
  norm_num
  unfold rawFeedback
  rw [if_pos h]
  simp

/-- C2 witness: the concrete password PASSWORD123 lowercases onto the list
and is forced to score 0, strength weak, with the common-password notice. -/
theorem checkStrength_common_password_override_witness :
    lowerStr "PASSWORD123" ∈ commonPasswords ∧
    ((checkStrength "PASSWORD123").score = 0 ∧
      (checkStrength "PASSWORD123").strength = Strength.weak ∧
      "🚫 Very common password - choose something unique" ∈
        (checkStrength "PASSWORD123").feedback) :=
  ⟨by decide, checkStrength_common_password_override "PASSWORD123" (by decide)⟩

/-- C3: for every password the score is an integer between 0 and 6, and the
strength verdict is derived from it by fixed thresholds: strong exactly when
score ≥ 5, medium exactly when 3 ≤ score < 5, weak otherwise. -/
theorem checkStrength_score_bounds_and_thresholds (password : String) :
    (checkStrength password).score ≤ 6 ∧
    ((checkStrength password).strength = Strength.strong ↔
      5 ≤ (checkStrength password).score) ∧
    ((checkStrength password).strength = Strength.medium ↔
      3 ≤ (checkStrength password).score ∧ (checkStrength password).score < 5) ∧
    ((checkStrength password).strength = Strength.weak ↔
      (checkStrength password).score < 3) := by
  have h6 : finalScore password ≤ 6 := by
    unfold finalScore
    split_ifs with hc
    · omega
    · exact rawScore_le_six password
  unfold checkStrength
  by_cases h5 : finalScore password ≥ 5
  · rw [if_pos h5]
    refine ⟨h6, by simp [h5], by simp; omega, by simp; omega⟩
  · rw [if_neg h5]
    by_cases h3 : finalScore password ≥ 3
    · rw [if_pos h3]
      refine ⟨h6, by simp; omega, by simp; omega, by simp; omega⟩
    · rw [if_neg h3]
      refine ⟨h6, by simp; omega, by simp; omega, by simp; omega⟩

/-! ## phishingScanner.basicUrlAnalysis

The six `suspiciousPatterns` regexes are modelled as decidable tests on the
lowercased character list (`pattern.test(url.toLowerCase())` in the source).
Each regex is unanchored, so a test succeeds when a match starts at some
position of the list. -/

/-- Does the list start with the given pattern list (JS `startsWith`)? -/
def beginsWith : List Char → List Char → Bool
  | _, [] => true
  | [], _ :: _ => false
  | c :: cs, d :: ds => c = d && beginsWith cs ds

/-- Does the pattern occur as a contiguous sublist (regex literal search)? -/
def containsSub (pat : List Char) : List Char → Bool
  | [] => beginsWith [] pat
  | c :: rest => beginsWith (c :: rest) pat || containsSub pat rest

/-- Does the predicate hold at some suffix position (unanchored search)? -/
def existsAt (p : List Char → Bool) : List Char → Bool
  | [] => p []
  | c :: rest => p (c :: rest) || existsAt p rest

/-- The regex class `[a-z0-9]` (on the lowercased URL). -/
def isLowerAlnum (c : Char) : Bool :=
  c.isLower || c.isDigit

/-- After at least one `[a-z0-9]` character was consumed, can the rest of
the regex tail `\.([a-z0-9]+)` still match here (with backtracking)? -/
def alnumDotTail : List Char → Bool
  | [] => false
  | c :: rest =>
    (c = '.' && (match rest with
      | d :: _ => isLowerAlnum d
      | [] => false))
      || (isLowerAlnum c && alnumDotTail rest)

/-- Match of the regex fragment `([a-z0-9]+)\.([a-z0-9]+)` at this position. -/
def alnumDotAlnum : List Char → Bool
  | [] => false
  | c :: rest => isLowerAlnum c && alnumDotTail rest

/-- Match of `(w1|...|wn)\.([a-z0-9]+)\.([a-z0-9]+)` at this position, for a
given keyword alternation. -/
def keywordDotAt (keys : List String) (l : List Char) : Bool :=
  keys.any fun k =>
    beginsWith l (k.data ++ ['.']) && alnumDotAlnum (l.drop (k.length + 1))

/-- Regex 1: `(login|signin|account)\.([a-z0-9]+)\.([a-z0-9]+)`. -/
def testPhishingPage (l : List Char) : Bool :=
  existsAt (keywordDotAt ["login", "signin", "account"]) l

/-- Regex 2: `(paypal|bank|amazon|google|facebook)\.([a-z0-9]+)\.([a-z0-9]+)`. -/
def testBrandImpersonation (l : List Char) : Bool :=
  existsAt (keywordDotAt ["paypal", "bank", "amazon", "google", "facebook"]) l

/-- Regex 3: `(bit\.ly|tinyurl|goo\.gl|t\.co|ow\.ly)`. -/
def testShortener (l : List Char) : Bool :=
  ["bit.ly", "tinyurl", "goo.gl", "t.co", "ow.ly"].any fun k => containsSub k.data l

/-- Regex 4: `@`. -/
def testAtSymbol (l : List Char) : Bool :=
  l.contains '@'

/-- Match of the regex fragment `\d+(\.\d+){k}` at this position;
`needFirst` records whether the first digit of the current group is still
owed. -/
def ipDigits : Nat → Bool → List Char → Bool
  | _, true, [] => false
  | k, true, c :: rest => c.isDigit && ipDigits k false rest
  | 0, false, _ => true
  | _ + 1, false, [] => false
  | k + 1, false, c :: rest =>
    (c = '.' && ipDigits k true rest) || (c.isDigit && ipDigits (k + 1) false rest)

/-- Match of `https?:\/\/\d+\.\d+\.\d+\.\d+` at this position. -/
def ipUrlAt (l : List Char) : Bool :=
  (beginsWith l ("http://".data) && ipDigits 3 true (l.drop 7))
    || (beginsWith l ("https://".data) && ipDigits 3 true (l.drop 8))

/-- Regex 5: `https?:\/\/\d+\.\d+\.\d+\.\d+`. -/
def testIpAddress (l : List Char) : Bool :=
  existsAt ipUrlAt l

/-- Regex 6: `-login-|secure-|verify-|account-` (the `i` flag is moot on the
already-lowercased URL). -/
def testSuspiciousKeywords (l : List Char) : Bool :=
  ["-login-", "secure-", "verify-", "account-"].any fun k => containsSub k.data l

/-- Threat strings pushed by the `suspiciousPatterns.forEach` loop, in the
order of the pattern table. -/
def patternThreats (l : List Char) : List String :=
  (if testPhishingPage l then ["Potential phishing page"] else [])
    ++ (if testBrandImpersonation l then ["Brand impersonation"] else [])
    ++ (if testShortener l then ["URL shortener"] else [])
    ++ (if testAtSymbol l then ["Misleading @ symbol"] else [])
    ++ (if testIpAddress l then ["IP address instead of domain"] else [])
    ++ (if testSuspiciousKeywords l then ["Suspicious keywords"] else [])

/-- The full `threats` array of `basicUrlAnalysis`: pattern matches on the
lowercased URL, then the case-sensitive HTTPS check on the original URL,
then the length check. -/
def basicThreats (url : String) : List String :=
  patternThreats (lowerChars url)
    ++ (if beginsWith url.data ("https://".data) then [] else ["Not using HTTPS"])
    ++ (if url.length > 100 then ["Unusually long URL"] else [])

/-- Result record of `basicUrlAnalysis`. -/
structure BasicResult where
  safe : Bool
  riskLevel : RiskLevel
  threatTypes : List String
  details : String
deriving DecidableEq

/-- Embedding of `phishingScanner.basicUrlAnalysis`. -/
def basicUrlAnalysis (url : String) : BasicResult :=
  let threats := basicThreats url
  { safe := threats.length = 0
    riskLevel :=
      if threats.length ≥ 3 then RiskLevel.high
      else if threats.length ≥ 1 then RiskLevel.medium
      else RiskLevel.low
    threatTypes := threats
    details := if threats.length > 0 then String.intercalate ". " threats else "Passes basic checks" }

/-- The threat list of `basicUrlAnalysis` is exactly the `threats` array. -/
theorem basicUrlAnalysis_threatTypes (url : String) :
    (basicUrlAnalysis url).threatTypes = basicThreats url := rfl

/-- A URL that does not start with the literal `https://` gets the
`Not using HTTPS` threat. -/
theorem notHttps_mem_basicThreats (url : String)
    (h : beginsWith url.data ("https://".data) = false) :
    "Not using HTTPS" ∈ basicThreats url := by
  unfold basicThreats
  rw [h]
  simp

/-- A URL containing `@` gets the `Misleading @ symbol` threat: the `@`
survives lowercasing, so regex 4 fires on the lowercased URL. -/
theorem atSymbol_mem_basicThreats (url : String) (h : '@' ∈ url.data) :
    "Misleading @ symbol" ∈ basicThreats url := by
  have hl : '@' ∈ lowerChars url := by
    show '@' ∈ url.data.map Char.toLower
    exact List.mem_map.mpr ⟨'@', h, by decide⟩
  have ht : testAtSymbol (lowerChars url) = true := by
    unfold testAtSymbol
    simpa using hl
  unfold basicThreats patternThreats
  rw [ht]
  simp

/-- C4: for every URL the verdict of `basicUrlAnalysis` is a function of the
number of collected threats (0 threats → safe and low risk, 1 or 2 → medium,
3 or more → high), and a URL containing `@` that does not use HTTPS is
unsafe with risk level at least medium. -/
theorem basicUrlAnalysis_verdict (url : String) :
    ((basicUrlAnalysis url).safe = true ↔ (basicUrlAnalysis url).threatTypes.length = 0) ∧
    ((basicUrlAnalysis url).riskLevel = RiskLevel.low ↔
      (basicUrlAnalysis url).threatTypes.length = 0) ∧
    ((basicUrlAnalysis url).riskLevel = RiskLevel.medium ↔
      1 ≤ (basicUrlAnalysis url).threatTypes.length ∧
        (basicUrlAnalysis url).threatTypes.length ≤ 2) ∧
    ((basicUrlAnalysis url).riskLevel = RiskLevel.high ↔
      3 ≤ (basicUrlAnalysis url).threatTypes.length) ∧
    ('@' ∈ url.data → beginsWith url.data ("https://".data) = false →
      (basicUrlAnalysis url).safe = false ∧
      ((basicUrlAnalysis url).riskLevel = RiskLevel.medium ∨
        (basicUrlAnalysis url).riskLevel = RiskLevel.high)) := by
  simp only [basicUrlAnalysis, basicUrlAnalysis_threatTypes]
  refine ⟨?_, ?_, ?_, ?_, ?_⟩
  · simp only [decide_eq_true_eq]
  · split_ifs <;> constructor <;> intro hx <;> first | rfl | exact absurd hx (by decide) | omega
  · split_ifs <;> constructor <;> intro hx <;> first | rfl | exact absurd hx (by decide) | omega
  · split_ifs <;> constructor <;> intro hx <;> first | rfl | exact absurd hx (by decide) | omega
  · intro h1 h2
    have hmemAt : "Misleading @ symbol" ∈ basicThreats url := atSymbol_mem_basicThreats url h1
    have hlen : 1 ≤ (basicThreats url).length :=
      List.length_pos.mpr (List.ne_nil_of_mem hmemAt)
    constructor
    · simp only [decide_eq_false_iff_not]
      omega
    · split_ifs <;> first | exact Or.inr rfl | exact Or.inl rfl | omega

/-- C4 witness: the URL http://test.com@evil.com contains `@` and does not
use HTTPS, and the theorem instantiated there gives the unsafe verdict with
risk level medium or high. -/
theorem basicUrlAnalysis_verdict_witness :
    ('@' ∈ "http://test.com@evil.com".data ∧
      beginsWith "http://test.com@evil.com".data ("https://".data) = false) ∧
    ((basicUrlAnalysis "http://test.com@evil.com").safe = false ∧
      ((basicUrlAnalysis "http://test.com@evil.com").riskLevel = RiskLevel.medium ∨
        (basicUrlAnalysis "http://test.com@evil.com").riskLevel = RiskLevel.high)) :=
  ⟨by decide,
    (basicUrlAnalysis_verdict "http://test.com@evil.com").2.2.2.2 (by decide) (by decide)⟩

/-- C10: a URL whose scheme spells https with at least one uppercase letter
(its lowercasing starts with `https://` but the original does not) fails the
case-sensitive HTTPS check, so it carries the `Not using HTTPS` threat, is
not reported safe, and its risk level is at least medium. -/
theorem basicUrlAnalysis_uppercase_scheme (url : String)
    (h1 : beginsWith (lowerChars url) ("https://".data) = true)
    (h2 : beginsWith url.data ("https://".data) = false) :
    "Not using HTTPS" ∈ (basicUrlAnalysis url).threatTypes ∧
    (basicUrlAnalysis url).safe = false ∧
    (basicUrlAnalysis url).riskLevel ≠ RiskLevel.low := by
  have hmem : "Not using HTTPS" ∈ basicThreats url := notHttps_mem_basicThreats url h2
  have hlen : 1 ≤ (basicThreats url).length :=
    List.length_pos.mpr (List.ne_nil_of_mem hmem)
  refine ⟨hmem, ?_, ?_⟩
  · simp only [basicUrlAnalysis]
    simp only [decide_eq_false_iff_not]
    omega
  · simp only [basicUrlAnalysis]
    split_ifs <;> intro hx <;> first | exact absurd hx (by decide) | omega

/-- C10 witness: HTTPS://example.com (uppercase scheme) is flagged as not
using HTTPS and judged unsafe with non-low risk. -/
theorem basicUrlAnalysis_uppercase_scheme_witness :
    (beginsWith (lowerChars "HTTPS://example.com") ("https://".data) = true ∧
      beginsWith "HTTPS://example.com".data ("https://".data) = false) ∧
    ("Not using HTTPS" ∈ (basicUrlAnalysis "HTTPS://example.com").threatTypes ∧
      (basicUrlAnalysis "HTTPS://example.com").safe = false ∧
      (basicUrlAnalysis "HTTPS://example.com").riskLevel ≠ RiskLevel.low) :=
  ⟨by decide, basicUrlAnalysis_uppercase_scheme "HTTPS://example.com" (by decide) (by decide)⟩

/-! ## phishingScanner.scanUrl

External calls are oracles carried in a `ScanEnv`: a `false` key field means
the credential is absent (the stage guard fails); an `Except.error ()`
response means the awaited call threw (the stage's own `catch` swallows it);
`env.unexpected` models an exception raised by anything not individually
wrapped inside the outer `try`, which the outer `catch` turns into the
maximal-risk fallback. The `timestamp` field (an external clock read) is
omitted from the result record. -/

/-- Result of `checkWithGoogle`, built from the `data.matches` threat-type
list of the threat-match response. -/
structure GoogleResult where
  safe : Bool
  threatTypes : List String
  details : String
deriving DecidableEq

/-- Embedding of `phishingScanner.checkWithGoogle`, applied to the list of
`threatType` labels of the matches in the service response. -/
def checkWithGoogle (ms : List String) : GoogleResult :=
  if ms.length > 0 then
    { safe := false
      threatTypes := ms
      details := "Google Safe Browsing: " ++ String.intercalate ", " ms ++ " detected" }
  else
    { safe := true, threatTypes := [], details := "Google Safe Browsing: No threats found" }

/-- Fields of the domain-reputation service response that
`checkDomainReputation` reads. `risk_score = none` models an absent field
(JS `undefined`), for which both `> 75` and `> 25` are false and `|| 0`
yields 0. -/
structure IpqsData where
  risk_score : Option Int
  malicious : Bool
  phishing : Bool
  suspicious : Bool
  message : Option String
deriving DecidableEq

/-- Result record of `checkDomainReputation`. -/
structure IpqsResult where
  reputation : Reputation
  riskScore : Int
  isMalicious : Bool
  isPhishing : Bool
  isSuspicious : Bool
  details : String
deriving DecidableEq

/-- Embedding of `phishingScanner.checkDomainReputation` applied to the
parsed service response. An empty `message` string is falsy in JS, so it
also falls through to the risk-score template. -/
def checkDomainReputation (data : IpqsData) : IpqsResult :=
  { reputation :=
      match data.risk_score with
      | some v => if v > 75 then Reputation.low else if v > 25 then Reputation.medium else Reputation.high
      | none => Reputation.high
    riskScore := data.risk_score.getD 0
    isMalicious := data.malicious
    isPhishing := data.phishing
    isSuspicious := data.suspicious
    details :=
      match data.message with
      | some m => if m = "" then "Risk score: " ++ toString (data.risk_score.getD 0) ++ "/100" else m
      | none => "Risk score: " ++ toString (data.risk_score.getD 0) ++ "/100" }

/-- The `last_analysis_stats` object of the multi-engine response, as a
field-name/count map. -/
def VtStats := List (String × Nat)

/-- Result record of `checkWithVirusTotal`. -/
structure VtResult where
  malicious : Nat
  suspicious : Nat
  undetected : Nat
  total : Nat
deriving DecidableEq

/-- Embedding of `phishingScanner.checkWithVirusTotal` applied to the parsed
analysis stats: absent fields default to 0 and `total` sums every value. -/
def checkWithVirusTotal (stats : VtStats) : VtResult :=
  let lookup : String → Nat := fun k =>
    ((stats.find? fun p => p.1 = k).map Prod.snd).getD 0
  { malicious := lookup "malicious"
    suspicious := lookup "suspicious"
    undetected := lookup "undetected"
    total := (stats.map Prod.snd).sum }

/-- Oracle environment of one `scanUrl` call. -/
structure ScanEnv where
  googleKey : Bool
  ipqsKey : Bool
  vtKey : Bool
  googleResp : Except Unit (List String)
  ipqsResp : Except Unit IpqsData
  vtResp : Except Unit VtStats
  unexpected : Bool

/-- Result record of `scanUrl` (without the timestamp). -/
structure ScanResult where
  safe : Bool
  riskLevel : RiskLevel
  threatTypes : List String
  googleSafe : Bool
  domainReputation : Reputation
  riskScore : Int
  details : String
deriving DecidableEq

/-- Initial `results` record of `scanUrl`. -/
def initialScan : ScanResult :=
  { safe := true
    riskLevel := RiskLevel.low
    threatTypes := []
    googleSafe := true
    domainReputation := Reputation.high
    riskScore := 0
    details := "" }

/-- Stage 1 of `scanUrl`: run `basicUrlAnalysis` and, when it is unsafe,
`Object.assign` its four fields over the initial record. -/
def stage1 (url : String) : ScanResult :=
  if (basicUrlAnalysis url).safe = false then
    { initialScan with
        safe := (basicUrlAnalysis url).safe
        riskLevel := (basicUrlAnalysis url).riskLevel
        threatTypes := (basicUrlAnalysis url).threatTypes
        details := (basicUrlAnalysis url).details }
  else initialScan

/-- Stage 2 of `scanUrl`: the Google Safe Browsing signal. Note that a match
replaces `threatTypes` with the list returned by the service. -/
def stage2 (env : ScanEnv) (r : ScanResult) : ScanResult :=
  if env.googleKey = true then
    match env.googleResp with
    | Except.ok ms =>
      if (checkWithGoogle ms).safe = false then
        { r with
            safe := false
            riskLevel := RiskLevel.high
            googleSafe := false
            threatTypes := (checkWithGoogle ms).threatTypes
            details := (checkWithGoogle ms).details }
      else r
    | Except.error _ => r
  else r

/-- Stage 3 of `scanUrl`: the IPQualityScore domain-reputation signal,
guarded by `ipqsApiKey && results.safe`. -/
def stage3 (env : ScanEnv) (r : ScanResult) : ScanResult :=
  if env.ipqsKey = true ∧ r.safe = true then
    match env.ipqsResp with
    | Except.ok data =>
      { (if (checkDomainReputation data).isMalicious = true ∨
            (checkDomainReputation data).isPhishing = true then
           { r with safe := false, riskLevel := RiskLevel.high }
         else r) with
          domainReputation := (checkDomainReputation data).reputation
          riskScore := (checkDomainReputation data).riskScore }
    | Except.error _ => r
  else r

/-- Stage 4 of `scanUrl`: the VirusTotal signal, guarded by
`vtApiKey && results.riskLevel === 'high'`. -/
def stage4 (env : ScanEnv) (r : ScanResult) : ScanResult :=
  if env.vtKey = true ∧ r.riskLevel = RiskLevel.high then
    match env.vtResp with
    | Except.ok stats =>
      if (checkWithVirusTotal stats).malicious > 0 then
        { r with safe := false, riskLevel := RiskLevel.high }
      else r
    | Except.error _ => r
  else r

/-- Finalization of `scanUrl`: generate the summary `details` line. -/
def finalizeScan (r : ScanResult) : ScanResult :=
  if r.safe = true then
    { r with details := "✅ URL appears safe based on multiple checks" }
  else
    { r with
        details := "⚠️ " ++
          (if r.threatTypes.length > 0 then String.intercalate ", " r.threatTypes
           else "Potential security threat detected") }

/-- The maximal-risk fallback returned by the outer `catch` of `scanUrl`. -/
def fallbackScan : ScanResult :=
  { safe := false
    riskLevel := RiskLevel.high
    threatTypes := ["Scan failed"]
    googleSafe := false
    domainReputation := Reputation.low
    riskScore := 100
    details := "Unable to complete security scan" }

/-- Embedding of `phishingScanner.scanUrl`: the four-stage pipeline inside
the outer `try`, collapsed to `fallbackScan` when the body throws
unexpectedly. -/
def scanUrl (env : ScanEnv) (url : String) : ScanResult :=
  if env.unexpected = true then fallbackScan
  else finalizeScan (stage4 env (stage3 env (stage2 env (stage1 url))))

/-! ### Stage lemmas -/

/-- Stage 1 carries over exactly the threat list of the local heuristic
(also when the heuristic found nothing, since then that list is empty). -/
theorem stage1_threatTypes (url : String) :
    (stage1 url).threatTypes = (basicUrlAnalysis url).threatTypes := by
  unfold stage1
  split_ifs with h
  · rfl
  · have hsafe : (basicUrlAnalysis url).safe = true := by
      cases hb : (basicUrlAnalysis url).safe
      · exact absurd hb h
      · rfl
    have hlen : ((basicThreats url).length = 0) := by
      have : (basicUrlAnalysis url).safe = decide ((basicThreats url).length = 0) := rfl
      rw [this] at hsafe
      exact of_decide_eq_true hsafe
    show ([] : List String) = (basicUrlAnalysis url).threatTypes
    rw [basicUrlAnalysis_threatTypes]
    exact (List.length_eq_zero.mp hlen).symm

/-- Stage 2 either leaves the threat list alone or replaces it with the
list returned by the threat-match service. -/
theorem stage2_threatTypes (env : ScanEnv) (r : ScanResult) :
    (stage2 env r).threatTypes = r.threatTypes ∨
    ∃ ms, env.googleResp = Except.ok ms ∧ (stage2 env r).threatTypes = ms := by
  unfold stage2
  split_ifs with h
  · cases hg : env.googleResp with
    | ok ms =>
      dsimp only
      split_ifs with hgs
      · right
        refine ⟨ms, rfl, ?_⟩
        show (checkWithGoogle ms).threatTypes = ms
        unfold checkWithGoogle at hgs ⊢
        split_ifs at hgs ⊢ with hm
        rfl
      · exact Or.inl rfl
    | error e => exact Or.inl rfl
  · exact Or.inl rfl

/-- Stage 3 never touches the threat list. -/
theorem stage3_threatTypes (env : ScanEnv) (r : ScanResult) :
    (stage3 env r).threatTypes = r.threatTypes := by
  unfold stage3
  split_ifs with h
  · cases hg : env.ipqsResp with
    | ok data =>
      dsimp only
      split_ifs <;> rfl
    | error e => rfl
  · rfl

/-- Stage 4 never touches the threat list. -/
theorem stage4_threatTypes (env : ScanEnv) (r : ScanResult) :
    (stage4 env r).threatTypes = r.threatTypes := by
  unfold stage4
  split_ifs with h
  · cases hg : env.vtResp with
    | ok stats =>
      dsimp only
      split_ifs <;> rfl
    | error e => rfl
  · rfl

/-- Finalization never touches the threat list. -/
theorem finalizeScan_threatTypes (r : ScanResult) :
    (finalizeScan r).threatTypes = r.threatTypes := by
  unfold finalizeScan
  split_ifs <;> rfl

/-- Stage 2 preserves a confirmed unsafe-and-high verdict. -/
theorem stage2_preserves_unsafe_high (env : ScanEnv) (r : ScanResult)
    (hs : r.safe = false) (hr : r.riskLevel = RiskLevel.high) :
    (stage2 env r).safe = false ∧ (stage2 env r).riskLevel = RiskLevel.high := by
  unfold stage2
  split_ifs with h
  · cases hg : env.googleResp with
    | ok ms =>
      dsimp only
      split_ifs <;> exact ⟨by first | rfl | assumption, by first | rfl | assumption⟩
    | error e => exact ⟨hs, hr⟩
  · exact ⟨hs, hr⟩

/-- Stage 3 preserves a confirmed unsafe-and-high verdict (it is skipped). -/
theorem stage3_preserves_unsafe_high (env : ScanEnv) (r : ScanResult)
    (hs : r.safe = false) (hr : r.riskLevel = RiskLevel.high) :
    (stage3 env r).safe = false ∧ (stage3 env r).riskLevel = RiskLevel.high := by
  unfold stage3
  rw [if_neg]
  · exact ⟨hs, hr⟩
  · rintro ⟨-, h2⟩
    rw [hs] at h2
    cases h2

/-- Stage 4 preserves a confirmed unsafe-and-high verdict. -/
theorem stage4_preserves_unsafe_high (env : ScanEnv) (r : ScanResult)
    (hs : r.safe = false) (hr : r.riskLevel = RiskLevel.high) :
    (stage4 env r).safe = false ∧ (stage4 env r).riskLevel = RiskLevel.high := by
  unfold stage4
  split_ifs with h
  · cases hg : env.vtResp with
    | ok stats =>
      dsimp only
      split_ifs <;> exact ⟨by first | rfl | assumption, by first | rfl | assumption⟩
    | error e => exact ⟨hs, hr⟩
  · exact ⟨hs, hr⟩

/-- Finalization preserves a confirmed unsafe-and-high verdict. -/
theorem finalizeScan_preserves_unsafe_high (r : ScanResult)
    (hs : r.safe = false) (hr : r.riskLevel = RiskLevel.high) :
    (finalizeScan r).safe = false ∧ (finalizeScan r).riskLevel = RiskLevel.high := by
  unfold finalizeScan
  rw [if_neg]
  · exact ⟨hs, hr⟩
  · rw [hs]
    intro h2
    cases h2

/-- C1 counterexample: with the threat-match credential configured and the
service reporting a MALWARE match, the `Misleading @ symbol` threat recorded
by the local stage is erased from the final threat list, so the final
`threatTypes` is not the union of the stage contributions. -/
theorem scanUrl_stage2_erases_stage1_threat :
    "Misleading @ symbol" ∈ (stage1 "http://test.com@evil.com").threatTypes ∧
    "Misleading @ symbol" ∉
      (scanUrl
        ⟨true, false, false, Except.ok ["MALWARE"], Except.error (), Except.error (), false⟩
        "http://test.com@evil.com").threatTypes := by
  decide

/-- C1 (amended): the final threat list is either exactly the local
heuristic's list or exactly the list returned by the threat-match service
(which replaces, not extends, the local findings); and once `safe = false`
with `riskLevel = high` holds, every later stage and the finalization keep
`safe = false` and `riskLevel = high`. -/
theorem scanUrl_threat_provenance_and_monotone (env : ScanEnv) (url : String)
    (r : ScanResult) (hu : env.unexpected = false) :
    ((scanUrl env url).threatTypes = (basicUrlAnalysis url).threatTypes ∨
      ∃ ms, env.googleResp = Except.ok ms ∧ (scanUrl env url).threatTypes = ms) ∧
    (r.safe = false → r.riskLevel = RiskLevel.high →
      ((stage2 env r).safe = false ∧ (stage2 env r).riskLevel = RiskLevel.high) ∧
      ((stage3 env r).safe = false ∧ (stage3 env r).riskLevel = RiskLevel.high) ∧
      ((stage4 env r).safe = false ∧ (stage4 env r).riskLevel = RiskLevel.high) ∧
      ((finalizeScan r).safe = false ∧ (finalizeScan r).riskLevel = RiskLevel.high)) := by
  constructor
  · have h1 : scanUrl env url =
        finalizeScan (stage4 env (stage3 env (stage2 env (stage1 url)))) := by
      unfold scanUrl
      rw [hu]
      simp
    rw [h1, finalizeScan_threatTypes, stage4_threatTypes, stage3_threatTypes]
    rcases stage2_threatTypes env (stage1 url) with h | ⟨ms, hms, h⟩
    · exact Or.inl (by rw [h, stage1_threatTypes])
    · exact Or.inr ⟨ms, hms, h⟩
  · intro hs hr
    exact ⟨stage2_preserves_unsafe_high env r hs hr,
      stage3_preserves_unsafe_high env r hs hr,
      stage4_preserves_unsafe_high env r hs hr,
      finalizeScan_preserves_unsafe_high r hs hr⟩

/-- C1 witness: a concrete run with no credentials keeps the local threat
list, and a concrete unsafe-high record is preserved by every later stage. -/
theorem scanUrl_threat_provenance_and_monotone_witness :
    ((scanUrl
        ⟨false, false, false, Except.error (), Except.error (), Except.error (), false⟩
        "http://bit.ly/abc").threatTypes =
          (basicUrlAnalysis "http://bit.ly/abc").threatTypes ∨
      ∃ ms,
        (⟨false, false, false, Except.error (), Except.error (), Except.error (), false⟩ :
            ScanEnv).googleResp = Except.ok ms ∧
        (scanUrl
          ⟨false, false, false, Except.error (), Except.error (), Except.error (), false⟩
          "http://bit.ly/abc").threatTypes = ms) ∧
    ((⟨false, RiskLevel.high, ["Not using HTTPS"], true, Reputation.high, 0, ""⟩ :
        ScanResult).safe = false →
      (⟨false, RiskLevel.high, ["Not using HTTPS"], true, Reputation.high, 0, ""⟩ :
        ScanResult).riskLevel = RiskLevel.high →
      ((stage2
          ⟨false, false, false, Except.error (), Except.error (), Except.error (), false⟩
          ⟨false, RiskLevel.high, ["Not using HTTPS"], true, Reputation.high, 0, ""⟩).safe = false ∧
        (stage2
          ⟨false, false, false, Except.error (), Except.error (), Except.error (), false⟩
          ⟨false, RiskLevel.high, ["Not using HTTPS"], true, Reputation.high, 0, ""⟩).riskLevel =
            RiskLevel.high) ∧
      ((stage3
          ⟨false, false, false, Except.error (), Except.error (), Except.error (), false⟩
          ⟨false, RiskLevel.high, ["Not using HTTPS"], true, Reputation.high, 0, ""⟩).safe = false ∧
        (stage3
          ⟨false, false, false, Except.error (), Except.error (), Except.error (), false⟩
          ⟨false, RiskLevel.high, ["Not using HTTPS"], true, Reputation.high, 0, ""⟩).riskLevel =
            RiskLevel.high) ∧
      ((stage4
          ⟨false, false, false, Except.error (), Except.error (), Except.error (), false⟩
          ⟨false, RiskLevel.high, ["Not using HTTPS"], true, Reputation.high, 0, ""⟩).safe = false ∧
        (stage4
          ⟨false, false, false, Except.error (), Except.error (), Except.error (), false⟩
          ⟨false, RiskLevel.high, ["Not using HTTPS"], true, Reputation.high, 0, ""⟩).riskLevel =
            RiskLevel.high) ∧
      ((finalizeScan
          ⟨false, RiskLevel.high, ["Not using HTTPS"], true, Reputation.high, 0, ""⟩).safe = false ∧
        (finalizeScan
          ⟨false, RiskLevel.high, ["Not using HTTPS"], true, Reputation.high, 0, ""⟩).riskLevel =
            RiskLevel.high)) :=
  scanUrl_threat_provenance_and_monotone
    ⟨false, false, false, Except.error (), Except.error (), Except.error (), false⟩
    "http://bit.ly/abc"
    ⟨false, RiskLevel.high, ["Not using HTTPS"], true, Reputation.high, 0, ""⟩
    rfl

/-- C5: the domain-reputation stage is the identity whenever its credential
is missing or the accumulated assessment is already unsafe, and the
multi-engine stage is the identity whenever its credential is missing or the
current risk level is not high: a skipped stage cannot establish any verdict
of its own, whatever its oracle would have answered. -/
theorem scanUrl_stage_guards (env : ScanEnv) (r : ScanResult) :
    (env.ipqsKey = false ∨ r.safe = false → stage3 env r = r) ∧
    (env.vtKey = false ∨ r.riskLevel ≠ RiskLevel.high → stage4 env r = r) := by
  constructor
  · intro h
    unfold stage3
    rw [if_neg]
    rintro ⟨h1, h2⟩
    rcases h with h | h
    · rw [h] at h1
      cases h1
    · rw [h] at h2
      cases h2
  · intro h
    unfold stage4
    rw [if_neg]
    rintro ⟨h1, h2⟩
    rcases h with h | h
    · rw [h] at h1
      cases h1
    · exact h h2

/-- C5 witness: with both credentials configured, a record already unsafe at
medium risk is untouched by stage 3 and stage 4 even though the reputation
oracle would report a malicious phishing domain. -/
theorem scanUrl_stage_guards_witness :
    stage3
      ⟨true, true, true, Except.error (),
        Except.ok ⟨some 99, true, true, true, none⟩, Except.ok [("malicious", 5)], false⟩
      ⟨false, RiskLevel.medium, ["Misleading @ symbol"], true, Reputation.high, 0, ""⟩ =
      ⟨false, RiskLevel.medium, ["Misleading @ symbol"], true, Reputation.high, 0, ""⟩ ∧
    stage4
      ⟨true, true, true, Except.error (),
        Except.ok ⟨some 99, true, true, true, none⟩, Except.ok [("malicious", 5)], false⟩
      ⟨false, RiskLevel.medium, ["Misleading @ symbol"], true, Reputation.high, 0, ""⟩ =
      ⟨false, RiskLevel.medium, ["Misleading @ symbol"], true, Reputation.high, 0, ""⟩ :=
  ⟨(scanUrl_stage_guards _ _).1 (Or.inr rfl),
    (scanUrl_stage_guards _ _).2 (Or.inr (by decide))⟩

/-- C6: the reputation label uses the inverted scale (numeric risk score
above 75 means low reputation, above 25 means medium, otherwise high), and
when the domain-reputation stage runs with a response, it always records the
reputation and risk score, and a malicious or phishing flag forces
`safe = false` with `riskLevel = high`. -/
theorem checkDomainReputation_scale_and_stage3 (data : IpqsData) (env : ScanEnv)
    (r : ScanResult) (hk : env.ipqsKey = true) (hs : r.safe = true)
    (hresp : env.ipqsResp = Except.ok data) :
    (∀ v : Int, data.risk_score = some v →
      (((checkDomainReputation data).reputation = Reputation.low ↔ 75 < v) ∧
        ((checkDomainReputation data).reputation = Reputation.medium ↔ 25 < v ∧ v ≤ 75) ∧
        ((checkDomainReputation data).reputation = Reputation.high ↔ v ≤ 25))) ∧
    (stage3 env r).domainReputation = (checkDomainReputation data).reputation ∧
    (stage3 env r).riskScore = (checkDomainReputation data).riskScore ∧
    (data.malicious = true ∨ data.phishing = true →
      (stage3 env r).safe = false ∧ (stage3 env r).riskLevel = RiskLevel.high) := by
  have hst : stage3 env r =
      { (if (checkDomainReputation data).isMalicious = true ∨
            (checkDomainReputation data).isPhishing = true then
           { r with safe := false, riskLevel := RiskLevel.high }
         else r) with
          domainReputation := (checkDomainReputation data).reputation
          riskScore := (checkDomainReputation data).riskScore } := by
    unfold stage3
    rw [if_pos ⟨hk, hs⟩, hresp]
  refine ⟨?_, by rw [hst], by rw [hst], ?_⟩
  · intro v hv
    unfold checkDomainReputation
    rw [hv]
    dsimp only
    refine ⟨?_, ?_, ?_⟩ <;> split_ifs <;> constructor <;> intro hx <;>
      first | rfl | exact absurd hx (by decide) | omega
  · intro hmp
    have hP : (checkDomainReputation data).isMalicious = true ∨
        (checkDomainReputation data).isPhishing = true := by
      rcases hmp with h | h
      · exact Or.inl (show data.malicious = true from h)
      · exact Or.inr (show data.phishing = true from h)
    rw [hst, if_pos hP]
    exact ⟨rfl, rfl⟩

/-- C6 witness: a response with risk score 80 and the malicious flag set
yields reputation low, and running stage 3 on a still-safe record stores the
reputation and score and forces the unsafe-high verdict. -/
theorem checkDomainReputation_scale_and_stage3_witness :
    ((∀ v : Int, (⟨some 80, true, false, false, none⟩ : IpqsData).risk_score = some v →
      (((checkDomainReputation ⟨some 80, true, false, false, none⟩).reputation =
          Reputation.low ↔ 75 < v) ∧
        ((checkDomainReputation ⟨some 80, true, false, false, none⟩).reputation =
          Reputation.medium ↔ 25 < v ∧ v ≤ 75) ∧
        ((checkDomainReputation ⟨some 80, true, false, false, none⟩).reputation =
          Reputation.high ↔ v ≤ 25))) ∧
    (stage3
        ⟨false, true, false, Except.error (),
          Except.ok ⟨some 80, true, false, false, none⟩, Except.error (), false⟩
        initialScan).domainReputation =
      (checkDomainReputation ⟨some 80, true, false, false, none⟩).reputation ∧
    (stage3
        ⟨false, true, false, Except.error (),
          Except.ok ⟨some 80, true, false, false, none⟩, Except.error (), false⟩
        initialScan).riskScore =
      (checkDomainReputation ⟨some 80, true, false, false, none⟩).riskScore ∧
    ((⟨some 80, true, false, false, none⟩ : IpqsData).malicious = true ∨
        (⟨some 80, true, false, false, none⟩ : IpqsData).phishing = true →
      (stage3
          ⟨false, true, false, Except.error (),
            Except.ok ⟨some 80, true, false, false, none⟩, Except.error (), false⟩
          initialScan).safe = false ∧
      (stage3
          ⟨false, true, false, Except.error (),
            Except.ok ⟨some 80, true, false, false, none⟩, Except.error (), false⟩
          initialScan).riskLevel = RiskLevel.high)) :=
  checkDomainReputation_scale_and_stage3
    ⟨some 80, true, false, false, none⟩
    ⟨false, true, false, Except.error (),
      Except.ok ⟨some 80, true, false, false, none⟩, Except.error (), false⟩
    initialScan rfl rfl rfl

/-- C7 counterexample: the single threat entry of the fallback result is the
string Scan failed with a capital S, so the fallback threat list is not
equal to the lowercase singleton list the claim states. -/
theorem scanUrl_fallback_message_case :
    (scanUrl ⟨false, false, false, Except.error (), Except.error (), Except.error (), true⟩
        "http://a.example").threatTypes ≠ ["scan failed"] ∧
    (scanUrl ⟨false, false, false, Except.error (), Except.error (), Except.error (), true⟩
        "http://a.example").threatTypes = ["Scan failed"] := by
  refine ⟨by decide, by decide⟩

/-- C7 (amended, message capitalization): when the pipeline body fails
unexpectedly, `scanUrl` returns the complete maximal-risk fallback: unsafe,
high risk, risk score 100, and the single threat entry Scan failed. -/
theorem scanUrl_unexpected_fallback (env : ScanEnv) (url : String)
    (h : env.unexpected = true) :
    scanUrl env url = fallbackScan ∧
    (scanUrl env url).safe = false ∧
    (scanUrl env url).riskLevel = RiskLevel.high ∧
    (scanUrl env url).riskScore = 100 ∧
    (scanUrl env url).threatTypes = ["Scan failed"] := by
  have h1 : scanUrl env url = fallbackScan := by
    unfold scanUrl
    rw [if_pos h]
  exact ⟨h1, by rw [h1]; rfl, by rw [h1]; rfl, by rw [h1]; rfl, by rw [h1]; rfl⟩

/-- C7 witness: a concrete unexpected failure collapses to the fallback. -/
theorem scanUrl_unexpected_fallback_witness :
    scanUrl ⟨false, false, false, Except.error (), Except.error (), Except.error (), true⟩
        "https://example.com" = fallbackScan ∧
    (scanUrl ⟨false, false, false, Except.error (), Except.error (), Except.error (), true⟩
        "https://example.com").safe = false ∧
    (scanUrl ⟨false, false, false, Except.error (), Except.error (), Except.error (), true⟩
        "https://example.com").riskLevel = RiskLevel.high ∧
    (scanUrl ⟨false, false, false, Except.error (), Except.error (), Except.error (), true⟩
        "https://example.com").riskScore = 100 ∧
    (scanUrl ⟨false, false, false, Except.error (), Except.error (), Except.error (), true⟩
        "https://example.com").threatTypes = ["Scan failed"] :=
  scanUrl_unexpected_fallback
    ⟨false, false, false, Except.error (), Except.error (), Except.error (), true⟩
    "https://example.com" rfl

/-! ## passwordStrengthChecker.checkPasswordBreach

The SHA-1 digest is an external computation: the function is modelled over
the already-computed 40-character uppercase hex digest, and the range-lookup
HTTP call is an oracle (`Except.error ()` = the fetch threw). JS `parseInt`
is modelled by `parseIntJS`, with `none` standing for `NaN`. -/

/-- JS `String.prototype.split` with a single-character separator. -/
def splitCh (sep : Char) : List Char → List (List Char)
  | [] => [[]]
  | c :: rest =>
    if c = sep then [] :: splitCh sep rest
    else
      match splitCh sep rest with
      | h :: t => (c :: h) :: t
      | [] => [[c]]

/-- Value of one hex digit, as accepted by `parseInt` in radix 16. -/
def hexVal (c : Char) : Option Nat :=
  if c.isDigit then some (c.toNat - 48)
  else if 'a' ≤ c ∧ c ≤ 'f' then some (c.toNat - 87)
  else if 'A' ≤ c ∧ c ≤ 'F' then some (c.toNat - 55)
  else none

/-- Longest run of decimal digits from the front, folded onto the
accumulator; `none` when not a single digit was consumed. -/
def takeDigitsVal : List Char → Option Nat → Option Nat
  | [], acc => acc
  | c :: rest, acc =>
    if c.isDigit then takeDigitsVal rest (some (acc.getD 0 * 10 + (c.toNat - 48)))
    else acc

/-- Longest run of hex digits from the front (for a `0x` literal). -/
def takeHexVal : List Char → Option Nat → Option Nat
  | [], acc => acc
  | c :: rest, acc =>
    match hexVal c with
    | some d => takeHexVal rest (some (acc.getD 0 * 16 + d))
    | none => acc

/-- Unsigned part of `parseInt` with no explicit radix: a `0x`/`0X` haver is
read as hex, anything else as the longest decimal-digit run. -/
def parseUnsigned (l : List Char) : Option Nat :=
  match l with
  | c0 :: c1 :: rest =>
    if c0 = '0' ∧ (c1 = 'x' ∨ c1 = 'X') then takeHexVal rest none
    else takeDigitsVal l none
  | _ => takeDigitsVal l none

/-- Optional sign of `parseInt`. -/
def parseSigned : List Char → Option Int
  | [] => none
  | c :: rest =>
    if c = '-' then (parseUnsigned rest).map fun n => -(n : Int)
    else if c = '+' then (parseUnsigned rest).map fun n => (n : Int)
    else (parseUnsigned (c :: rest)).map fun n => (n : Int)

/-- JS `parseInt(s)` (no radix argument): skip leading whitespace, optional
sign, optional hex prefix, longest digit run; `none` is `NaN`. -/
def parseIntJS (l : List Char) : Option Int :=
  parseSigned (l.dropWhile fun c => c.isWhitespace)

/-- JS `parseInt` applied to an indexing result: `parseInt(undefined)`
coerces `undefined` to the string "undefined" and yields `NaN`. -/
def parseIntOptJS : Option (List Char) → Option Int
  | some l => parseIntJS l
  | none => none

/-- Rendering of a possibly-NaN number inside a template string. -/
def numText : Option Int → String
  | some n => toString n
  | none => "NaN"

/-- An HTTP response as `checkPasswordBreach` sees it: the `ok` flag and the
body text. -/
structure FetchResp where
  ok : Bool
  text : String
deriving DecidableEq

/-- Result record of `checkPasswordBreach`; `breachCount = none` models the
JS `NaN` that `parseInt` produces on a malformed count. -/
structure BreachResult where
  isBreached : Bool
  breachCount : Option Int
  details : String
deriving DecidableEq

/-- The degraded result of the `catch` branch of `checkPasswordBreach`. -/
def degradedBreach : BreachResult :=
  ⟨false, some 0, "⚠️ Unable to check breaches"⟩

/-- The uppercased hash suffix, `passwordHash.substring(5).toUpperCase()`. -/
def suffixChars (passwordHash : String) : List Char :=
  (passwordHash.data.drop 5).map Char.toUpper

/-- The `hashes.find(hash => hash.startsWith(suffix))` lookup over the
newline-split response body. -/
def breachLine (passwordHash : String) (text : String) : Option (List Char) :=
  (splitCh '\n' text.data).find? fun line => beginsWith line (suffixChars passwordHash)

/-- Embedding of `passwordStrengthChecker.checkPasswordBreach` on the
computed digest and the fetch oracle. A found empty line is JS-falsy, so it
falls through to the no-breaches branch like an absent match. -/
def checkPasswordBreach (passwordHash : String)
    (fetchResult : Except Unit FetchResp) : BreachResult :=
  match fetchResult with
  | Except.error _ => degradedBreach
  | Except.ok resp =>
    if resp.ok = false then degradedBreach
    else
      match breachLine passwordHash resp.text with
      | some line =>
        if line = [] then ⟨false, some 0, "✅ No breaches found"⟩
        else
          ⟨true, parseIntOptJS ((splitCh ':' line).get? 1),
            "⚠️ Found in " ++ numText (parseIntOptJS ((splitCh ':' line).get? 1))
              ++ " data breaches!"⟩
      | none => ⟨false, some 0, "✅ No breaches found"⟩

/-- Folding decimal digits over a `some` accumulator stays a `some`. -/
theorem takeDigitsVal_all_digits (ds : List Char)
    (hd : ∀ c ∈ ds, c.isDigit = true) (a : Nat) :
    ∃ n : Nat, takeDigitsVal ds (some a) = some n := by
  induction ds generalizing a with
  | nil => exact ⟨a, rfl⟩
  | cons c rest ih =>
    have hc : c.isDigit = true := hd c (by simp)
    have hstep : takeDigitsVal (c :: rest) (some a) =
        if c.isDigit then takeDigitsVal rest (some (a * 10 + (c.toNat - 48)))
        else some a := rfl
    rw [hstep, if_pos hc]
    exact ih (fun d hm => hd d (List.mem_cons_of_mem c hm)) _

/-- A digit character is not a whitespace character. -/
theorem digit_not_whitespace (c : Char) (hc : c.isDigit = true) :
    c.isWhitespace = false := by
  cases hw : c.isWhitespace
  · rfl
  · exfalso
    have hw2 : ((c = ' ' ∨ c = '\t') ∨ c = '\r') ∨ c = '\n' := by
      simpa [Char.isWhitespace] using hw
    rcases hw2 with ((h | h) | h) | h <;> subst h <;> exact absurd hc (by decide)

/-- JS `parseInt` of a nonempty all-decimal-digit string is a non-negative
integer (never `NaN`, never negative). -/
theorem parseIntJS_all_digits (ds : List Char) (hne : ds ≠ [])
    (hd : ∀ c ∈ ds, c.isDigit = true) :
    ∃ n : Nat, parseIntJS ds = some (n : Int) := by
  obtain ⟨c, rest, rfl⟩ := List.exists_cons_of_ne_nil hne
  have hc : c.isDigit = true := hd c (by simp)
  have hnw : c.isWhitespace = false := digit_not_whitespace c hc
  have hdw : ((c :: rest).dropWhile fun d => d.isWhitespace) = c :: rest := by
    rw [List.dropWhile_cons]
    simp [hnw]
  unfold parseIntJS
  rw [hdw]
  have hminus : ¬c = '-' := by
    intro h
    subst h
    exact absurd hc (by decide)
  have hplus : ¬c = '+' := by
    intro h
    subst h
    exact absurd hc (by decide)
  have hsgn : parseSigned (c :: rest) = (parseUnsigned (c :: rest)).map fun n => (n : Int) := by
    unfold parseSigned
    dsimp only
    rw [if_neg hminus, if_neg hplus]
  rw [hsgn]
  have hu : ∃ n : Nat, parseUnsigned (c :: rest) = some n := by
    cases rest with
    | nil =>
      have h1 : parseUnsigned [c] = takeDigitsVal [c] none := rfl
      have h2 : takeDigitsVal [c] none =
          if c.isDigit then takeDigitsVal [] (some (0 * 10 + (c.toNat - 48))) else none := rfl
      rw [h1, h2, if_pos hc]
      exact ⟨0 * 10 + (c.toNat - 48), rfl⟩
    | cons c1 rest1 =>
      have hc1 : c1.isDigit = true := hd c1 (by simp)
      have h1 : parseUnsigned (c :: c1 :: rest1) =
          if c = '0' ∧ (c1 = 'x' ∨ c1 = 'X') then takeHexVal rest1 none
          else takeDigitsVal (c :: c1 :: rest1) none := rfl
      rw [h1, if_neg ?hno]
      case hno =>
        rintro ⟨-, h | h⟩ <;> subst h <;> exact absurd hc1 (by decide)
      have h2 : takeDigitsVal (c :: c1 :: rest1) none =
          if c.isDigit then takeDigitsVal (c1 :: rest1) (some (0 * 10 + (c.toNat - 48)))
          else none := rfl
      rw [h2, if_pos hc]
      exact takeDigitsVal_all_digits (c1 :: rest1)
        (fun d hm => hd d (List.mem_cons_of_mem c hm)) _
  obtain ⟨n, hn⟩ := hu
  exact ⟨n, by rw [hn]; rfl⟩

/-- C8 counterexample: a malformed response body (the matching line carries
a non-numeric count) is not mapped to the degraded unable-to-check result:
the code reports a breach with a NaN count. -/
theorem checkPasswordBreach_malformed_not_degraded :
    (checkPasswordBreach "AAAAABBBBBBBBBBBBBBBBBBBBBBBBBBBBBBBBBBB"
        (Except.ok ⟨true, "BBBBBBBBBBBBBBBBBBBBBBBBBBBBBBBBBBB:forty"⟩)).isBreached = true ∧
    (checkPasswordBreach "AAAAABBBBBBBBBBBBBBBBBBBBBBBBBBBBBBBBBBB"
        (Except.ok ⟨true, "BBBBBBBBBBBBBBBBBBBBBBBBBBBBBBBBBBB:forty"⟩)).breachCount = none ∧
    checkPasswordBreach "AAAAABBBBBBBBBBBBBBBBBBBBBBBBBBBBBBBBBBB"
        (Except.ok ⟨true, "BBBBBBBBBBBBBBBBBBBBBBBBBBBBBBBBBBB:forty"⟩) ≠ degradedBreach := by
  refine ⟨by decide, by decide, by decide⟩

/-- C8 (amended): a transport error or non-success status is caught and
mapped to the degraded result, and a breach is only ever reported when some
response line actually starts with the computed suffix; malformed bodies are
not detected, they flow through the parse. -/
theorem checkPasswordBreach_error_handling (passwordHash : String) (resp : FetchResp) :
    checkPasswordBreach passwordHash (Except.error ()) = degradedBreach ∧
    (resp.ok = false → checkPasswordBreach passwordHash (Except.ok resp) = degradedBreach) ∧
    ((checkPasswordBreach passwordHash (Except.ok resp)).isBreached = true →
      ∃ line, breachLine passwordHash resp.text = some line ∧
        beginsWith line (suffixChars passwordHash) = true) := by
  refine ⟨rfl, ?_, ?_⟩
  · intro h
    unfold checkPasswordBreach
    dsimp only
    rw [if_pos h]
  · intro h
    unfold checkPasswordBreach at h
    dsimp only at h
    by_cases hok : resp.ok = false
    · rw [if_pos hok] at h
      cases h
    · rw [if_neg hok] at h
      cases hfind : breachLine passwordHash resp.text with
      | some line =>
        refine ⟨line, rfl, ?_⟩
        unfold breachLine at hfind
        simpa using List.find?_some hfind
      | none =>
        rw [hfind] at h
        cases h

/-- C8 witness: concrete transport error and non-success status both give
the degraded result. -/
theorem checkPasswordBreach_error_handling_witness :
    checkPasswordBreach "AAAAABBBBBBBBBBBBBBBBBBBBBBBBBBBBBBBBBBB"
        (Except.error ()) = degradedBreach ∧
    checkPasswordBreach "AAAAABBBBBBBBBBBBBBBBBBBBBBBBBBBBBBBBBBB"
        (Except.ok ⟨false, "server error"⟩) = degradedBreach :=
  ⟨(checkPasswordBreach_error_handling "AAAAABBBBBBBBBBBBBBBBBBBBBBBBBBBBBBBBBBB"
      ⟨false, "server error"⟩).1,
    (checkPasswordBreach_error_handling "AAAAABBBBBBBBBBBBBBBBBBBBBBBBBBBBBBBBBBB"
      ⟨false, "server error"⟩).2.1 rfl⟩

/-- C9 counterexample: a response whose matching line has no colon at all
yields a reported breach whose count is NaN, not a non-negative integer. -/
theorem checkPasswordBreach_no_colon_nan_count :
    (checkPasswordBreach "AAAAACCCCCCCCCCCCCCCCCCCCCCCCCCCCCCCCCCC"
        (Except.ok ⟨true, "CCCCCCCCCCCCCCCCCCCCCCCCCCCCCCCCCCC"⟩)).isBreached = true ∧
    (checkPasswordBreach "AAAAACCCCCCCCCCCCCCCCCCCCCCCCCCCCCCCCCCC"
        (Except.ok ⟨true, "CCCCCCCCCCCCCCCCCCCCCCCCCCCCCCCCCCC"⟩)).breachCount = none := by
  refine ⟨by decide, by decide⟩

/-- C9 (amended): on a successful response, no line starting with the suffix
gives not-breached with count 0; a found nonempty line gives breached with
count `parseInt` of the text after the first colon — which is a non-negative
integer whenever that text is a nonempty run of decimal digits, but NaN or
even negative on malformed lines. -/
theorem checkPasswordBreach_scan (passwordHash : String) (resp : FetchResp)
    (hok : resp.ok = true) :
    (breachLine passwordHash resp.text = none →
      (checkPasswordBreach passwordHash (Except.ok resp)).isBreached = false ∧
      (checkPasswordBreach passwordHash (Except.ok resp)).breachCount = some 0) ∧
    (∀ line, breachLine passwordHash resp.text = some line → line ≠ [] →
      (checkPasswordBreach passwordHash (Except.ok resp)).isBreached = true ∧
      (checkPasswordBreach passwordHash (Except.ok resp)).breachCount =
        parseIntOptJS ((splitCh ':' line).get? 1)) ∧
    (∀ line ds, breachLine passwordHash resp.text = some line →
      (splitCh ':' line).get? 1 = some ds → ds ≠ [] →
      (∀ c ∈ ds, c.isDigit = true) →
      ∃ n : Nat,
        (checkPasswordBreach passwordHash (Except.ok resp)).breachCount = some (n : Int)) := by
  have hnotfalse : ¬resp.ok = false := by
    rw [hok]
    intro h
    cases h
  refine ⟨?_, ?_, ?_⟩
  · intro hfind
    unfold checkPasswordBreach
    dsimp only
    rw [if_neg hnotfalse, hfind]
    exact ⟨rfl, rfl⟩
  · intro line hfind hne
    unfold checkPasswordBreach
    dsimp only
    rw [if_neg hnotfalse, hfind]
    dsimp only
    rw [if_neg hne]
    exact ⟨rfl, rfl⟩
  · intro line ds hfind hds hdne hdig
    have hlne : line ≠ [] := by
      intro h
      subst h
      have : splitCh ':' ([] : List Char) = [[]] := rfl
      rw [this] at hds
      cases hds
    unfold checkPasswordBreach
    dsimp only
    rw [if_neg hnotfalse, hfind]
    dsimp only
    rw [if_neg hlne, hds]
    exact parseIntJS_all_digits ds hdne hdig

/-- C9 witness: the theorem instantiated at a successful response whose
single line is the computed suffix followed by a colon and the decimal
count 42, so the matching-line conjuncts are exercised non-vacuously. -/
theorem checkPasswordBreach_scan_witness :
    (breachLine "AAAAABBBBBBBBBBBBBBBBBBBBBBBBBBBBBBBBBBB" "BBBBBBBBBBBBBBBBBBBBBBBBBBBBBBBBBBB:42" = none →
      (checkPasswordBreach "AAAAABBBBBBBBBBBBBBBBBBBBBBBBBBBBBBBBBBB"
        (Except.ok ⟨true, "BBBBBBBBBBBBBBBBBBBBBBBBBBBBBBBBBBB:42"⟩)).isBreached = false ∧
      (checkPasswordBreach "AAAAABBBBBBBBBBBBBBBBBBBBBBBBBBBBBBBBBBB"
        (Except.ok ⟨true, "BBBBBBBBBBBBBBBBBBBBBBBBBBBBBBBBBBB:42"⟩)).breachCount = some 0) ∧
    (∀ line, breachLine "AAAAABBBBBBBBBBBBBBBBBBBBBBBBBBBBBBBBBBB" "BBBBBBBBBBBBBBBBBBBBBBBBBBBBBBBBBBB:42" = some line →
      line ≠ [] →
      (checkPasswordBreach "AAAAABBBBBBBBBBBBBBBBBBBBBBBBBBBBBBBBBBB"
        (Except.ok ⟨true, "BBBBBBBBBBBBBBBBBBBBBBBBBBBBBBBBBBB:42"⟩)).isBreached = true ∧
      (checkPasswordBreach "AAAAABBBBBBBBBBBBBBBBBBBBBBBBBBBBBBBBBBB"
        (Except.ok ⟨true, "BBBBBBBBBBBBBBBBBBBBBBBBBBBBBBBBBBB:42"⟩)).breachCount =
          parseIntOptJS ((splitCh ':' line).get? 1)) ∧
    (∀ line ds, breachLine "AAAAABBBBBBBBBBBBBBBBBBBBBBBBBBBBBBBBBBB" "BBBBBBBBBBBBBBBBBBBBBBBBBBBBBBBBBBB:42" = some line →
      (splitCh ':' line).get? 1 = some ds → ds ≠ [] →
      (∀ c ∈ ds, c.isDigit = true) →
      ∃ n : Nat,
        (checkPasswordBreach "AAAAABBBBBBBBBBBBBBBBBBBBBBBBBBBBBBBBBBB"
          (Except.ok ⟨true, "BBBBBBBBBBBBBBBBBBBBBBBBBBBBBBBBBBB:42"⟩)).breachCount = some (n : Int)) :=
  checkPasswordBreach_scan "AAAAABBBBBBBBBBBBBBBBBBBBBBBBBBBBBBBBBBB" ⟨true, "BBBBBBBBBBBBBBBBBBBBBBBBBBBBBBBBBBB:42"⟩ rfl

end CyberVault
